import Mathlib

/-!
Verification of the Gradio risk-calculator application.

The visible source of the repository is a single file, app.py.  It defines
the glue function assess_patient_risk, which receives the 21 raw form
inputs, builds the patient-data dictionary (deriving bmi eagerly as
weight / ((height/100)**2)), instantiates RiskCalculator, calls
calculate_all_risks, asks an external AI collaborator for commentary, and
formats the per-condition results into a markdown string.

The scoring engine itself (RiskCalculator in utils_risk_calculator), the
validator (DataValidator in utils_data_validator, imported but never
called) and the AI client (ClaudeIntegration) are imported from modules
that are not part of the given source; where a claim depends on the
engine, it is modelled from the specification and marked as such.

Numbers are embedded as integers and rationals: Python ints as Int,
Python floats as Rat.  Fallible Python code (the ZeroDivisionError that
float division raises on a zero divisor) is embedded in Except.
-/

/-- The 21 raw inputs of assess_patient_risk (app.py, lines 8 to 30),
in declaration order.  There is no bmi field here: the caller never
supplies a body-mass index. -/
structure RawInput where
  age : ℤ
  gender : String
  height : ℚ
  weight : ℚ
  smoking : String
  alcohol : String
  exercise : String
  diet : String
  diabetes_history : Bool
  depression_history : Bool
  family_diabetes : Bool
  family_hypertension : Bool
  family_cancer : String
  systolic_bp : ℤ
  diastolic_bp : ℤ
  heart_rate : ℤ
  fasting_glucose : ℚ
  hba1c : ℚ
  total_cholesterol : ℚ
  ldl_cholesterol : ℚ
  hdl_cholesterol : ℚ
deriving Repr, DecidableEq

/-- The patient_data dictionary built in app.py, lines 60 to 83: the 21
raw fields plus the derived bmi entry, in the dictionary order of the
source. -/
structure PatientData where
  age : ℤ
  gender : String
  height : ℚ
  weight : ℚ
  bmi : ℚ
  smoking : String
  alcohol : String
  exercise : String
  diet : String
  diabetes_history : Bool
  depression_history : Bool
  family_diabetes : Bool
  family_hypertension : Bool
  family_cancer : String
  systolic_bp : ℤ
  diastolic_bp : ℤ
  heart_rate : ℤ
  fasting_glucose : ℚ
  hba1c : ℚ
  total_cholesterol : ℚ
  ldl_cholesterol : ℚ
  hdl_cholesterol : ℚ
deriving Repr, DecidableEq

/-- The record the dictionary literal of app.py lines 60 to 83 denotes
when its bmi entry evaluates without error: every raw field is passed
through unchanged and bmi is weight / ((height/100)^2). -/
def pdOf (r : RawInput) : PatientData :=
  { age := r.age
    gender := r.gender
    height := r.height
    weight := r.weight
    bmi := r.weight / ((r.height / 100) ^ 2)
    smoking := r.smoking
    alcohol := r.alcohol
    exercise := r.exercise
    diet := r.diet
    diabetes_history := r.diabetes_history
    depression_history := r.depression_history
    family_diabetes := r.family_diabetes
    family_hypertension := r.family_hypertension
    family_cancer := r.family_cancer
    systolic_bp := r.systolic_bp
    diastolic_bp := r.diastolic_bp
    heart_rate := r.heart_rate
    fasting_glucose := r.fasting_glucose
    hba1c := r.hba1c
    total_cholesterol := r.total_cholesterol
    ldl_cholesterol := r.ldl_cholesterol
    hdl_cholesterol := r.hdl_cholesterol }

/-- The construction of patient_data in app.py, line 65 included: Python
evaluates the bmi expression eagerly while building the dictionary, and
float division raises ZeroDivisionError exactly when the divisor
(height/100)**2 equals zero.  No other validation of any field is
performed by app.py (DataValidator is imported on line 4 but never
used). -/
def mkPatientData (r : RawInput) : Except String PatientData :=
  if ((r.height / 100) ^ 2) = 0 then Except.error "ZeroDivisionError"
  else Except.ok (pdOf r)

/-- Indicator weight of one modifier rule: the weight when the predicate
holds, zero otherwise. -/
def ind (q : Prop) [Decidable q] (w : ℚ) : ℚ := if q then w else 0

/-- Clamp a score to the interval [0, 100]. -/
def clamp01 (x : ℚ) : ℚ := max 0 (min 100 x)

/-- One triggered modifier: its human-readable label and its weight. -/
structure Factor where
  label : String
  weight : ℚ
deriving Repr, DecidableEq

/-- The contribution list of one modifier rule: the labelled weight when
the predicate holds, nothing otherwise. -/
def trig (q : Prop) [Decidable q] (lab : String) (w : ℚ) : List Factor :=
  if q then [⟨lab, w⟩] else []

/-- Sum of the weights of a list of triggered modifiers. -/
def weightSum (l : List Factor) : ℚ := (l.map Factor.weight).sum

/-- Combination rule of the specification, section 4.2: base plus sum of
triggered modifier weights, clamped to [0, 100]. -/
def condRisk (base : ℚ) (facs : List Factor) : ℚ := clamp01 (base + weightSum facs)

/-- Insert a factor into a weight-sorted list, descending, keeping an
earlier-declared factor before any later factor of equal weight. -/
def insertFac (m : Factor) : List Factor → List Factor
  | [] => [m]
  | x :: xs => if x.weight ≤ m.weight then m :: x :: xs else x :: insertFac m xs

/-- Stable insertion sort of triggered modifiers by weight, descending;
ties keep declaration order. -/
def sortFacs : List Factor → List Factor
  | [] => []
  | x :: xs => insertFac x (sortFacs xs)

/-- Key-factor extraction of the specification, section 4.2: rank the
triggered modifiers by weight descending (ties by declaration order) and
keep the labels of the top three. -/
def topFactors (l : List Factor) : List String :=
  ((sortFacs l).take 3).map Factor.label

/-- One scored condition: risk percentage and ordered key factors, the
fields of one value of the risk_results mapping consumed by app.py
lines 92 to 93. -/
structure RiskResult where
  risk_percentage : ℚ
  key_factors : List String
deriving Repr, DecidableEq

/-- Modelled from the spec: RiskCalculator lives in
utils_risk_calculator, which is not part of the given source.  Base risk
of the type-2 diabetes scorer, monotone age bands (spec section 4.2,
item 1). -/
def diabetesBase (r : PatientData) : ℚ :=
  2 + ind (30 ≤ r.age) 3 + ind (45 ≤ r.age) 5 + ind (65 ≤ r.age) 5

/-- Modelled from the spec: modifier rules of the type-2 diabetes scorer
(spec section 4.2, item 2: lab thresholds such as fasting glucose at or
above 126 mg/dL and HbA1c at or above 6.5 percent, body-mass index,
family and gestational history, lifestyle). -/
def diabetesFactors (r : PatientData) : List Factor :=
  trig (126 ≤ r.fasting_glucose) "Fasting Glucose" 25 ++
  trig ((6.5 : ℚ) ≤ r.hba1c) "HbA1c" 25 ++
  trig (30 ≤ r.bmi) "BMI" 10 ++
  trig (r.family_diabetes = true) "Family History of Diabetes" 10 ++
  trig (r.diabetes_history = true) "Gestational Diabetes History" 10 ++
  trig (r.exercise = "Sedentary") "Exercise Level" 4

/-- Modelled from the spec: base risk of the hypertension scorer. -/
def hypertensionBase (r : PatientData) : ℚ :=
  3 + ind (40 ≤ r.age) 5 + ind (60 ≤ r.age) 7

/-- Modelled from the spec: modifier rules of the hypertension scorer
(systolic threshold 140 mmHg, diastolic threshold 90 mmHg, family
history, body-mass index, lifestyle). -/
def hypertensionFactors (r : PatientData) : List Factor :=
  trig (140 ≤ r.systolic_bp) "Systolic BP" 25 ++
  trig (90 ≤ r.diastolic_bp) "Diastolic BP" 15 ++
  trig (r.family_hypertension = true) "Family History of Hypertension" 10 ++
  trig (30 ≤ r.bmi) "BMI" 10 ++
  trig (r.alcohol = "Heavy") "Alcohol Consumption" 6 ++
  trig (r.smoking = "Current") "Smoking" 5

/-- Modelled from the spec: base risk of the cardiovascular scorer, with
the gender-specific baseline of spec section 4.2, item 1. -/
def cardioBase (r : PatientData) : ℚ :=
  2 + ind (45 ≤ r.age) 5 + ind (55 ≤ r.age) 5 + ind (65 ≤ r.age) 5 +
    ind (r.gender = "Male") 3

/-- Modelled from the spec: modifier rules of the cardiovascular scorer
(LDL and total cholesterol thresholds, low HDL, systolic pressure,
smoking, body-mass index). -/
def cardioFactors (r : PatientData) : List Factor :=
  trig (160 ≤ r.ldl_cholesterol) "LDL Cholesterol" 20 ++
  trig (r.hdl_cholesterol < 40) "HDL Cholesterol" 10 ++
  trig (140 ≤ r.systolic_bp) "Systolic BP" 15 ++
  trig (r.smoking = "Current") "Smoking" 15 ++
  trig (240 ≤ r.total_cholesterol) "Total Cholesterol" 10 ++
  trig (30 ≤ r.bmi) "BMI" 8

/-- Modelled from the spec: base risk of the depression-relapse scorer. -/
def depressionBase (r : PatientData) : ℚ :=
  5 + ind (65 ≤ r.age) 3

/-- Modelled from the spec: modifier rules of the depression-relapse
scorer (medical history and lifestyle). -/
def depressionFactors (r : PatientData) : List Factor :=
  trig (r.depression_history = true) "Depression History" 30 ++
  trig (r.exercise = "Sedentary") "Exercise Level" 10 ++
  trig (r.alcohol = "Heavy") "Alcohol Consumption" 10

/-- Modelled from the spec: base risk of the cancer-predisposition
scorer. -/
def cancerBase (r : PatientData) : ℚ :=
  2 + ind (50 ≤ r.age) 5 + ind (65 ≤ r.age) 5

/-- Modelled from the spec: modifier rules of the cancer-predisposition
scorer; family cancer history is read by this scorer only. -/
def cancerFactors (r : PatientData) : List Factor :=
  trig (r.family_cancer ≠ "None") "Family Cancer History" 20 ++
  trig (r.smoking = "Current") "Smoking" 15 ++
  trig (r.alcohol = "Heavy") "Alcohol Consumption" 8 ++
  trig (30 ≤ r.bmi) "BMI" 5

/-- Modelled from the spec: the type-2 diabetes condition scorer,
a weighted-factor model (spec section 4.2). -/
def scoreDiabetes (r : PatientData) : RiskResult :=
  ⟨condRisk (diabetesBase r) (diabetesFactors r), topFactors (diabetesFactors r)⟩

/-- Modelled from the spec: the hypertension condition scorer. -/
def scoreHypertension (r : PatientData) : RiskResult :=
  ⟨condRisk (hypertensionBase r) (hypertensionFactors r), topFactors (hypertensionFactors r)⟩

/-- Modelled from the spec: the cardiovascular-disease condition scorer. -/
def scoreCardio (r : PatientData) : RiskResult :=
  ⟨condRisk (cardioBase r) (cardioFactors r), topFactors (cardioFactors r)⟩

/-- Modelled from the spec: the depression-relapse condition scorer. -/
def scoreDepression (r : PatientData) : RiskResult :=
  ⟨condRisk (depressionBase r) (depressionFactors r), topFactors (depressionFactors r)⟩

/-- Modelled from the spec: the cancer-predisposition condition scorer. -/
def scoreCancer (r : PatientData) : RiskResult :=
  ⟨condRisk (cancerBase r) (cancerFactors r), topFactors (cancerFactors r)⟩

/-- The fixed, declared condition ordering of the aggregator (spec
sections 2 and 4.3): not alphabetical, not input-dependent. -/
def conditionOrder : List String :=
  ["type_2_diabetes", "hypertension", "cardiovascular_disease",
   "depression_relapse", "cancer_predisposition"]

/-- Modelled from the spec: RiskCalculator.calculate_all_risks, the
engine entry point called by app.py line 88 but defined in
utils_risk_calculator, which is not part of the given source.  It invokes
each condition scorer once against the same record and assembles the
ordered report following the fixed condition ordering (spec sections 4.2
and 4.3). -/
def calculate_all_risks (r : PatientData) : List (String × RiskResult) :=
  [("type_2_diabetes", scoreDiabetes r),
   ("hypertension", scoreHypertension r),
   ("cardiovascular_disease", scoreCardio r),
   ("depression_relapse", scoreDepression r),
   ("cancer_predisposition", scoreCancer r)]

/-- The Python str.title pass over a character list: the first alphabetic
character of each run of alphabetic characters is uppercased, the rest of
the run lowercased; the boolean records whether the previous character
was alphabetic. -/
def pyTitleGo : Bool → List Char → List Char
  | _, [] => []
  | prev, c :: cs =>
    if c.isAlpha then (if prev then c.toLower else c.toUpper) :: pyTitleGo true cs
    else c :: pyTitleGo false cs

/-- Python str.title on a string. -/
def pyTitle (s : String) : String := ⟨pyTitleGo false s.data⟩

/-- Python replace of every underscore by a space, as in
condition.replace on app.py line 93. -/
def underscoreToSpace (s : String) : String :=
  ⟨s.data.map fun c => if c = '_' then ' ' else c⟩

/-- Round a rational to an integer, half to even, as Python float
formatting does. -/
def roundHalfEven (t : ℚ) : ℤ :=
  let f := ⌊t⌋
  let r := t - (f : ℚ)
  if r < 1 / 2 then f
  else if 1 / 2 < r then f + 1
  else if f % 2 = 0 then f else f + 1

/-- Python formatting of a number with one decimal place, the .1f format
of app.py line 93: round half to even at one tenth, then print integer
part, a dot, and the tenths digit. -/
def fmt1 (x : ℚ) : String :=
  let n := roundHalfEven (x * 10)
  if n < 0 then "-" ++ toString ((-n) / 10) ++ "." ++ toString ((-n) % 10)
  else toString (n / 10) ++ "." ++ toString (n % 10)

/-- One bulleted result line of app.py line 93: bold title produced by
replacing underscores with spaces and title-casing the condition
identifier, risk percentage with one decimal place, and the comma-joined
key factors. -/
def renderLine (cr : String × RiskResult) : String :=
  "- **" ++ pyTitle (underscoreToSpace cr.1) ++ ":** " ++
    fmt1 cr.2.risk_percentage ++ "% (Key Factors: " ++
    String.intercalate ", " cr.2.key_factors ++ ")\n"

/-- The output formatting of app.py lines 91 to 96: a header, then the
loop over risk_results items appending one rendered line per condition
to the accumulator, then the AI-insights section. -/
def assess_format (risk_results : List (String × RiskResult)) (ai_insights : String) : String :=
  let body := risk_results.foldl (fun acc cr => acc ++ renderLine cr)
    "## Risk Assessment Results\n\n"
  body ++ "\n## AI-Powered Clinical Insights\n\n" ++ ai_insights

/-- Concatenation of a list of strings in order. -/
def joinAll : List String → String
  | [] => ""
  | s :: rest => s ++ joinAll rest

/-- The function assess_patient_risk of app.py, lines 8 to 98, embedded
over the 21 raw inputs: build patient_data (which can only fail with the
ZeroDivisionError of the bmi entry), run the engine on it, and format
the report.  The AI commentary returned by the external ClaudeIntegration
collaborator is a parameter, since that collaborator performs network
calls outside the engine. -/
def assess_patient_risk (raw : RawInput) (ai_insights : String) : Except String String :=
  match mkPatientData raw with
  | Except.error e => Except.error e
  | Except.ok pd => Except.ok (assess_format (calculate_all_risks pd) ai_insights)

/-- The default form values of the Gradio interface in app.py, lines 103
to 133, used as a concrete well-formed input. -/
def defaultRaw : RawInput :=
  { age := 45
    gender := "Female"
    height := 165
    weight := 70
    smoking := "Never"
    alcohol := "None"
    exercise := "Sedentary"
    diet := "Standard"
    diabetes_history := false
    depression_history := false
    family_diabetes := false
    family_hypertension := false
    family_cancer := "None"
    systolic_bp := 128
    diastolic_bp := 82
    heart_rate := 72
    fasting_glucose := 97
    hba1c := 5.7
    total_cholesterol := 201
    ldl_cholesterol := 120
    hdl_cholesterol := 54 }

/-- The default input with a negative weight: app.py accepts it without
any validation. -/
def rawNegWeight : RawInput := { defaultRaw with weight := -70 }

/-- The default input with height zero: the bmi expression of app.py
line 65 divides by zero on it. -/
def rawZeroHeight : RawInput := { defaultRaw with height := 0 }

/-- A concrete normalized record used to instantiate universally
quantified theorems: the record derived from the default form values. -/
def pdExample : PatientData := pdOf defaultRaw

theorem ind_mono {q r : Prop} [Decidable q] [Decidable r] {w : ℚ}
    (hw : 0 ≤ w) (h : q → r) : ind q w ≤ ind r w := by
  unfold ind
  by_cases hq : q
  · simp [hq, h hq]
  · simp only [if_neg hq]
    split <;> simp [hw]

theorem ind_nonneg {q : Prop} [Decidable q] {w : ℚ} (hw : 0 ≤ w) : 0 ≤ ind q w := by
  unfold ind; split <;> simp [hw]

theorem clamp01_mono {x y : ℚ} (h : x ≤ y) : clamp01 x ≤ clamp01 y :=
  max_le_max le_rfl (min_le_min le_rfl h)

theorem clamp01_bounds (x : ℚ) : 0 ≤ clamp01 x ∧ clamp01 x ≤ 100 :=
  ⟨le_max_left _ _, max_le (by norm_num) (min_le_left _ _)⟩

theorem weightSum_append (a b : List Factor) :
    weightSum (a ++ b) = weightSum a + weightSum b := by
  simp [weightSum]

theorem weightSum_trig (q : Prop) [Decidable q] (lab : String) (w : ℚ) :
    weightSum (trig q lab w) = ind q w := by
  unfold trig ind
  split <;> simp [weightSum]

theorem mkPatientData_ok (raw : RawInput) (h : raw.height ≠ 0) :
    mkPatientData raw = Except.ok (pdOf raw) := by
  unfold mkPatientData
  rw [if_neg]
  intro hc
  rcases div_eq_zero_iff.mp ((pow_eq_zero_iff (two_ne_zero)).mp hc) with h0 | h0
  · exact h h0
  · norm_num at h0

theorem foldl_renderLine (l : List (String × RiskResult)) (acc : String) :
    l.foldl (fun a cr => a ++ renderLine cr) acc = acc ++ joinAll (l.map renderLine) := by
  induction l generalizing acc with
  | nil => simp [joinAll]
  | cons x xs ih =>
      simp only [List.foldl_cons, List.map_cons, joinAll, ih]
      rw [String.append_assoc]

/-- C1: the claim states that every input with non-positive height or
weight raises a ValidationError before any scorer runs.  The code does
not: app.py performs no validation (DataValidator is imported but never
called), so on the default form values with weight set to minus seventy
the record is built with a negative body-mass index and the engine runs
to completion, returning a full formatted report instead of raising. -/
theorem C1_no_validation_on_nonpositive_weight :
    rawNegWeight.weight < 0 ∧ 0 < rawNegWeight.height ∧
    (pdOf rawNegWeight).bmi < 0 ∧
    assess_patient_risk rawNegWeight "" =
      Except.ok (assess_format (calculate_all_risks (pdOf rawNegWeight)) "") := by
  refine ⟨by norm_num [rawNegWeight, defaultRaw], by norm_num [rawNegWeight, defaultRaw], ?_, ?_⟩
  · show rawNegWeight.weight / ((rawNegWeight.height / 100) ^ 2) < 0
    norm_num [rawNegWeight, defaultRaw]
  · unfold assess_patient_risk
    rw [mkPatientData_ok _ (by norm_num [rawNegWeight, defaultRaw])]

/-- C2: for every input with positive height and weight, the constructed
patient record has body-mass index weight / ((height/100)^2), derived by
the normalization step itself (RawInput carries no bmi field; the bmi
entry is computed on app.py line 65). -/
theorem C2_bmi_derived (raw : RawInput) (hh : 0 < raw.height) (hw : 0 < raw.weight) :
    mkPatientData raw = Except.ok (pdOf raw) ∧
    (pdOf raw).bmi = raw.weight / ((raw.height / 100) ^ 2) :=
  ⟨mkPatientData_ok raw (ne_of_gt hh), rfl⟩

/-- Witness for C2 on the default form values of the interface. -/
theorem C2_bmi_derived_witness :
    (0 : ℚ) < defaultRaw.height ∧ (0 : ℚ) < defaultRaw.weight ∧
    (mkPatientData defaultRaw = Except.ok (pdOf defaultRaw) ∧
     (pdOf defaultRaw).bmi = defaultRaw.weight / ((defaultRaw.height / 100) ^ 2)) :=
  ⟨by norm_num [defaultRaw], by norm_num [defaultRaw],
   C2_bmi_derived defaultRaw (by norm_num [defaultRaw]) (by norm_num [defaultRaw])⟩

/-- C3: the normalization step derives nothing but bmi; each of the 21
other attributes of the constructed record equals the corresponding raw
input unchanged (app.py lines 60 to 83). -/
theorem C3_all_other_fields_pass_through (raw : RawInput) (pd : PatientData)
    (h : mkPatientData raw = Except.ok pd) :
    pd.age = raw.age ∧ pd.gender = raw.gender ∧ pd.height = raw.height ∧
    pd.weight = raw.weight ∧ pd.smoking = raw.smoking ∧ pd.alcohol = raw.alcohol ∧
    pd.exercise = raw.exercise ∧ pd.diet = raw.diet ∧
    pd.diabetes_history = raw.diabetes_history ∧
    pd.depression_history = raw.depression_history ∧
    pd.family_diabetes = raw.family_diabetes ∧
    pd.family_hypertension = raw.family_hypertension ∧
    pd.family_cancer = raw.family_cancer ∧
    pd.systolic_bp = raw.systolic_bp ∧ pd.diastolic_bp = raw.diastolic_bp ∧
    pd.heart_rate = raw.heart_rate ∧ pd.fasting_glucose = raw.fasting_glucose ∧
    pd.hba1c = raw.hba1c ∧ pd.total_cholesterol = raw.total_cholesterol ∧
    pd.ldl_cholesterol = raw.ldl_cholesterol ∧
    pd.hdl_cholesterol = raw.hdl_cholesterol := by
  unfold mkPatientData at h
  split at h
  · exact Except.noConfusion h
  · injection h with h2
    subst h2
    exact ⟨rfl, rfl, rfl, rfl, rfl, rfl, rfl, rfl, rfl, rfl, rfl, rfl, rfl, rfl,
      rfl, rfl, rfl, rfl, rfl, rfl, rfl⟩

/-- Witness for C3 on the default form values. -/
theorem C3_all_other_fields_pass_through_witness :
    (pdOf defaultRaw).age = defaultRaw.age ∧
    (pdOf defaultRaw).gender = defaultRaw.gender ∧
    (pdOf defaultRaw).height = defaultRaw.height ∧
    (pdOf defaultRaw).weight = defaultRaw.weight ∧
    (pdOf defaultRaw).smoking = defaultRaw.smoking ∧
    (pdOf defaultRaw).alcohol = defaultRaw.alcohol ∧
    (pdOf defaultRaw).exercise = defaultRaw.exercise ∧
    (pdOf defaultRaw).diet = defaultRaw.diet ∧
    (pdOf defaultRaw).diabetes_history = defaultRaw.diabetes_history ∧
    (pdOf defaultRaw).depression_history = defaultRaw.depression_history ∧
    (pdOf defaultRaw).family_diabetes = defaultRaw.family_diabetes ∧
    (pdOf defaultRaw).family_hypertension = defaultRaw.family_hypertension ∧
    (pdOf defaultRaw).family_cancer = defaultRaw.family_cancer ∧
    (pdOf defaultRaw).systolic_bp = defaultRaw.systolic_bp ∧
    (pdOf defaultRaw).diastolic_bp = defaultRaw.diastolic_bp ∧
    (pdOf defaultRaw).heart_rate = defaultRaw.heart_rate ∧
    (pdOf defaultRaw).fasting_glucose = defaultRaw.fasting_glucose ∧
    (pdOf defaultRaw).hba1c = defaultRaw.hba1c ∧
    (pdOf defaultRaw).total_cholesterol = defaultRaw.total_cholesterol ∧
    (pdOf defaultRaw).ldl_cholesterol = defaultRaw.ldl_cholesterol ∧
    (pdOf defaultRaw).hdl_cholesterol = defaultRaw.hdl_cholesterol :=
  C3_all_other_fields_pass_through defaultRaw (pdOf defaultRaw)
    (mkPatientData_ok defaultRaw (by norm_num [defaultRaw]))

/-- C9: with a positive height, app.py performs no range or sign
validation of any field: the record is always constructed, a
non-positive weight yields a non-positive bmi, and the record is handed
to calculate_all_risks with no error raised by the glue code. -/
theorem C9_no_sign_validation (raw : RawInput) (ai : String)
    (hh : 0 < raw.height) (hw : raw.weight ≤ 0) :
    mkPatientData raw = Except.ok (pdOf raw) ∧
    (pdOf raw).bmi ≤ 0 ∧
    assess_patient_risk raw ai =
      Except.ok (assess_format (calculate_all_risks (pdOf raw)) ai) := by
  have hok := mkPatientData_ok raw (ne_of_gt hh)
  refine ⟨hok, ?_, ?_⟩
  · show raw.weight / ((raw.height / 100) ^ 2) ≤ 0
    exact div_nonpos_iff.mpr (Or.inr ⟨hw, sq_nonneg _⟩)
  · unfold assess_patient_risk
    rw [hok]

/-- Witness for C9 at the default values with weight minus seventy. -/
theorem C9_no_sign_validation_witness :
    (0 : ℚ) < rawNegWeight.height ∧ rawNegWeight.weight ≤ 0 ∧
    (mkPatientData rawNegWeight = Except.ok (pdOf rawNegWeight) ∧
     (pdOf rawNegWeight).bmi ≤ 0 ∧
     assess_patient_risk rawNegWeight "" =
       Except.ok (assess_format (calculate_all_risks (pdOf rawNegWeight)) "")) :=
  ⟨by norm_num [rawNegWeight, defaultRaw], by norm_num [rawNegWeight, defaultRaw],
   C9_no_sign_validation rawNegWeight "" (by norm_num [rawNegWeight, defaultRaw])
     (by norm_num [rawNegWeight, defaultRaw])⟩

/-- C10: with height zero, the eager bmi expression of the dictionary
literal divides by zero, so assess_patient_risk fails with
ZeroDivisionError; the Except short-circuit returns the error before
calculate_all_risks is ever applied. -/
theorem C10_zero_height_division_error (raw : RawInput) (ai : String)
    (h : raw.height = 0) :
    mkPatientData raw = Except.error "ZeroDivisionError" ∧
    assess_patient_risk raw ai = Except.error "ZeroDivisionError" := by
  have hm : mkPatientData raw = Except.error "ZeroDivisionError" := by
    unfold mkPatientData
    rw [if_pos]
    rw [h]
    norm_num
  refine ⟨hm, ?_⟩
  unfold assess_patient_risk
  rw [hm]

/-- Witness for C10 at the default values with height zero. -/
theorem C10_zero_height_division_error_witness :
    rawZeroHeight.height = 0 ∧
    (mkPatientData rawZeroHeight = Except.error "ZeroDivisionError" ∧
     assess_patient_risk rawZeroHeight "" = Except.error "ZeroDivisionError") :=
  ⟨rfl, C10_zero_height_division_error rawZeroHeight "" rfl⟩

/-- C4: every risk percentage in the report of calculate_all_risks lies
in the closed interval [0, 100], since each scorer clamps base plus
triggered modifier weights. -/
theorem C4_risk_percentage_in_range (r : PatientData) (cr : String × RiskResult)
    (h : cr ∈ calculate_all_risks r) :
    0 ≤ cr.2.risk_percentage ∧ cr.2.risk_percentage ≤ 100 := by
  fin_cases h <;> exact clamp01_bounds _

/-- Witness for C4 on the diabetes entry of the default record. -/
theorem C4_risk_percentage_in_range_witness :
    ("type_2_diabetes", scoreDiabetes pdExample) ∈ calculate_all_risks pdExample ∧
    (0 ≤ ("type_2_diabetes", scoreDiabetes pdExample).2.risk_percentage ∧
     ("type_2_diabetes", scoreDiabetes pdExample).2.risk_percentage ≤ 100) :=
  ⟨List.mem_cons_self _ _,
   C4_risk_percentage_in_range pdExample _ (List.mem_cons_self _ _)⟩

/-- C5: the key order of the report equals the fixed declared condition
ordering for every input record. -/
theorem C5_fixed_key_order (r : PatientData) :
    (calculate_all_risks r).map Prod.fst = conditionOrder := rfl

/-- C6: the engine is deterministic; on equal records the two reports
are equal in full, hence agree on conditions, risk percentages and
key-factor sequences.  The embedding is a pure function of the record,
with no hidden state, randomness or time input. -/
theorem C6_deterministic (r1 r2 : PatientData) (h : r1 = r2) :
    calculate_all_risks r1 = calculate_all_risks r2 ∧
    (calculate_all_risks r1).map Prod.fst = (calculate_all_risks r2).map Prod.fst ∧
    (calculate_all_risks r1).map (fun cr => cr.2.risk_percentage) =
      (calculate_all_risks r2).map (fun cr => cr.2.risk_percentage) ∧
    (calculate_all_risks r1).map (fun cr => cr.2.key_factors) =
      (calculate_all_risks r2).map (fun cr => cr.2.key_factors) := by
  subst h
  exact ⟨rfl, rfl, rfl, rfl⟩

/-- Witness for C6 on the default record. -/
theorem C6_deterministic_witness :
    calculate_all_risks pdExample = calculate_all_risks pdExample ∧
    (calculate_all_risks pdExample).map Prod.fst =
      (calculate_all_risks pdExample).map Prod.fst ∧
    (calculate_all_risks pdExample).map (fun cr => cr.2.risk_percentage) =
      (calculate_all_risks pdExample).map (fun cr => cr.2.risk_percentage) ∧
    (calculate_all_risks pdExample).map (fun cr => cr.2.key_factors) =
      (calculate_all_risks pdExample).map (fun cr => cr.2.key_factors) :=
  C6_deterministic pdExample pdExample rfl

/-- C7: per-condition monotonicity in the known risk-increasing fields.
For each condition, holding every other field fixed and raising one of
the risk-increasing fields of that condition (the threshold-modifier
fields and age) never decreases the risk percentage of that condition. -/
theorem C7_monotone_in_risk_increasing_fields :
    (∀ (r : PatientData) (v : ℚ), r.fasting_glucose ≤ v →
      (scoreDiabetes r).risk_percentage ≤
        (scoreDiabetes {r with fasting_glucose := v}).risk_percentage) ∧
    (∀ (r : PatientData) (v : ℚ), r.hba1c ≤ v →
      (scoreDiabetes r).risk_percentage ≤
        (scoreDiabetes {r with hba1c := v}).risk_percentage) ∧
    (∀ (r : PatientData) (v : ℚ), r.bmi ≤ v →
      (scoreDiabetes r).risk_percentage ≤
        (scoreDiabetes {r with bmi := v}).risk_percentage) ∧
    (∀ (r : PatientData) (v : ℤ), r.age ≤ v →
      (scoreDiabetes r).risk_percentage ≤
        (scoreDiabetes {r with age := v}).risk_percentage) ∧
    (∀ (r : PatientData) (v : ℤ), r.systolic_bp ≤ v →
      (scoreHypertension r).risk_percentage ≤
        (scoreHypertension {r with systolic_bp := v}).risk_percentage) ∧
    (∀ (r : PatientData) (v : ℤ), r.diastolic_bp ≤ v →
      (scoreHypertension r).risk_percentage ≤
        (scoreHypertension {r with diastolic_bp := v}).risk_percentage) ∧
    (∀ (r : PatientData) (v : ℚ), r.bmi ≤ v →
      (scoreHypertension r).risk_percentage ≤
        (scoreHypertension {r with bmi := v}).risk_percentage) ∧
    (∀ (r : PatientData) (v : ℤ), r.age ≤ v →
      (scoreHypertension r).risk_percentage ≤
        (scoreHypertension {r with age := v}).risk_percentage) ∧
    (∀ (r : PatientData) (v : ℚ), r.ldl_cholesterol ≤ v →
      (scoreCardio r).risk_percentage ≤
        (scoreCardio {r with ldl_cholesterol := v}).risk_percentage) ∧
    (∀ (r : PatientData) (v : ℚ), r.total_cholesterol ≤ v →
      (scoreCardio r).risk_percentage ≤
        (scoreCardio {r with total_cholesterol := v}).risk_percentage) ∧
    (∀ (r : PatientData) (v : ℤ), r.systolic_bp ≤ v →
      (scoreCardio r).risk_percentage ≤
        (scoreCardio {r with systolic_bp := v}).risk_percentage) ∧
    (∀ (r : PatientData) (v : ℚ), r.bmi ≤ v →
      (scoreCardio r).risk_percentage ≤
        (scoreCardio {r with bmi := v}).risk_percentage) ∧
    (∀ (r : PatientData) (v : ℤ), r.age ≤ v →
      (scoreCardio r).risk_percentage ≤
        (scoreCardio {r with age := v}).risk_percentage) ∧
    (∀ (r : PatientData) (v : ℤ), r.age ≤ v →
      (scoreDepression r).risk_percentage ≤
        (scoreDepression {r with age := v}).risk_percentage) ∧
    (∀ (r : PatientData) (v : ℤ), r.age ≤ v →
      (scoreCancer r).risk_percentage ≤
        (scoreCancer {r with age := v}).risk_percentage) ∧
    (∀ (r : PatientData) (v : ℚ), r.bmi ≤ v →
      (scoreCancer r).risk_percentage ≤
        (scoreCancer {r with bmi := v}).risk_percentage) := by
  refine ⟨?_, ?_, ?_, ?_, ?_, ?_, ?_, ?_, ?_, ?_, ?_, ?_, ?_, ?_, ?_, ?_⟩
  · intro r v h
    show condRisk (diabetesBase r) (diabetesFactors r) ≤
      condRisk (diabetesBase {r with fasting_glucose := v})
        (diabetesFactors {r with fasting_glucose := v})
    unfold condRisk
    apply clamp01_mono
    simp only [diabetesBase, diabetesFactors, weightSum_append, weightSum_trig]
    have h1 : ind (126 ≤ r.fasting_glucose) (25 : ℚ) ≤ ind (126 ≤ v) 25 :=
      ind_mono (by norm_num) (fun hh => hh.trans h)
    linarith [h1]
  · intro r v h
    show condRisk (diabetesBase r) (diabetesFactors r) ≤
      condRisk (diabetesBase {r with hba1c := v}) (diabetesFactors {r with hba1c := v})
    unfold condRisk
    apply clamp01_mono
    simp only [diabetesBase, diabetesFactors, weightSum_append, weightSum_trig]
    have h1 : ind ((6.5 : ℚ) ≤ r.hba1c) (25 : ℚ) ≤ ind ((6.5 : ℚ) ≤ v) 25 :=
      ind_mono (by norm_num) (fun hh => hh.trans h)
    linarith [h1]
  · intro r v h
    show condRisk (diabetesBase r) (diabetesFactors r) ≤
      condRisk (diabetesBase {r with bmi := v}) (diabetesFactors {r with bmi := v})
    unfold condRisk
    apply clamp01_mono
    simp only [diabetesBase, diabetesFactors, weightSum_append, weightSum_trig]
    have h1 : ind (30 ≤ r.bmi) (10 : ℚ) ≤ ind (30 ≤ v) 10 :=
      ind_mono (by norm_num) (fun hh => hh.trans h)
    linarith [h1]
  · intro r v h
    show condRisk (diabetesBase r) (diabetesFactors r) ≤
      condRisk (diabetesBase {r with age := v}) (diabetesFactors {r with age := v})
    unfold condRisk
    apply clamp01_mono
    simp only [diabetesBase, diabetesFactors, weightSum_append, weightSum_trig]
    have h1 : ind (30 ≤ r.age) (3 : ℚ) ≤ ind (30 ≤ v) 3 :=
      ind_mono (by norm_num) (fun hh => hh.trans h)
    have h2 : ind (45 ≤ r.age) (5 : ℚ) ≤ ind (45 ≤ v) 5 :=
      ind_mono (by norm_num) (fun hh => hh.trans h)
    have h3 : ind (65 ≤ r.age) (5 : ℚ) ≤ ind (65 ≤ v) 5 :=
      ind_mono (by norm_num) (fun hh => hh.trans h)
    linarith [h1, h2, h3]
  · intro r v h
    show condRisk (hypertensionBase r) (hypertensionFactors r) ≤
      condRisk (hypertensionBase {r with systolic_bp := v})
        (hypertensionFactors {r with systolic_bp := v})
    unfold condRisk
    apply clamp01_mono
    simp only [hypertensionBase, hypertensionFactors, weightSum_append, weightSum_trig]
    have h1 : ind (140 ≤ r.systolic_bp) (25 : ℚ) ≤ ind (140 ≤ v) 25 :=
      ind_mono (by norm_num) (fun hh => hh.trans h)
    linarith [h1]
  · intro r v h
    show condRisk (hypertensionBase r) (hypertensionFactors r) ≤
      condRisk (hypertensionBase {r with diastolic_bp := v})
        (hypertensionFactors {r with diastolic_bp := v})
    unfold condRisk
    apply clamp01_mono
    simp only [hypertensionBase, hypertensionFactors, weightSum_append, weightSum_trig]
    have h1 : ind (90 ≤ r.diastolic_bp) (15 : ℚ) ≤ ind (90 ≤ v) 15 :=
      ind_mono (by norm_num) (fun hh => hh.trans h)
    linarith [h1]
  · intro r v h
    show condRisk (hypertensionBase r) (hypertensionFactors r) ≤
      condRisk (hypertensionBase {r with bmi := v})
        (hypertensionFactors {r with bmi := v})
    unfold condRisk
    apply clamp01_mono
    simp only [hypertensionBase, hypertensionFactors, weightSum_append, weightSum_trig]
    have h1 : ind (30 ≤ r.bmi) (10 : ℚ) ≤ ind (30 ≤ v) 10 :=
      ind_mono (by norm_num) (fun hh => hh.trans h)
    linarith [h1]
  · intro r v h
    show condRisk (hypertensionBase r) (hypertensionFactors r) ≤
      condRisk (hypertensionBase {r with age := v})
        (hypertensionFactors {r with age := v})
    unfold condRisk
    apply clamp01_mono
    simp only [hypertensionBase, hypertensionFactors, weightSum_append, weightSum_trig]
    have h1 : ind (40 ≤ r.age) (5 : ℚ) ≤ ind (40 ≤ v) 5 :=
      ind_mono (by norm_num) (fun hh => hh.trans h)
    have h2 : ind (60 ≤ r.age) (7 : ℚ) ≤ ind (60 ≤ v) 7 :=
      ind_mono (by norm_num) (fun hh => hh.trans h)
    linarith [h1, h2]
  · intro r v h
    show condRisk (cardioBase r) (cardioFactors r) ≤
      condRisk (cardioBase {r with ldl_cholesterol := v})
        (cardioFactors {r with ldl_cholesterol := v})
    unfold condRisk
    apply clamp01_mono
    simp only [cardioBase, cardioFactors, weightSum_append, weightSum_trig]
    have h1 : ind (160 ≤ r.ldl_cholesterol) (20 : ℚ) ≤ ind (160 ≤ v) 20 :=
      ind_mono (by norm_num) (fun hh => hh.trans h)
    linarith [h1]
  · intro r v h
    show condRisk (cardioBase r) (cardioFactors r) ≤
      condRisk (cardioBase {r with total_cholesterol := v})
        (cardioFactors {r with total_cholesterol := v})
    unfold condRisk
    apply clamp01_mono
    simp only [cardioBase, cardioFactors, weightSum_append, weightSum_trig]
    have h1 : ind (240 ≤ r.total_cholesterol) (10 : ℚ) ≤ ind (240 ≤ v) 10 :=
      ind_mono (by norm_num) (fun hh => hh.trans h)
    linarith [h1]
  · intro r v h
    show condRisk (cardioBase r) (cardioFactors r) ≤
      condRisk (cardioBase {r with systolic_bp := v})
        (cardioFactors {r with systolic_bp := v})
    unfold condRisk
    apply clamp01_mono
    simp only [cardioBase, cardioFactors, weightSum_append, weightSum_trig]
    have h1 : ind (140 ≤ r.systolic_bp) (15 : ℚ) ≤ ind (140 ≤ v) 15 :=
      ind_mono (by norm_num) (fun hh => hh.trans h)
    linarith [h1]
  · intro r v h
    show condRisk (cardioBase r) (cardioFactors r) ≤
      condRisk (cardioBase {r with bmi := v}) (cardioFactors {r with bmi := v})
    unfold condRisk
    apply clamp01_mono
    simp only [cardioBase, cardioFactors, weightSum_append, weightSum_trig]
    have h1 : ind (30 ≤ r.bmi) (8 : ℚ) ≤ ind (30 ≤ v) 8 :=
      ind_mono (by norm_num) (fun hh => hh.trans h)
    linarith [h1]
  · intro r v h
    show condRisk (cardioBase r) (cardioFactors r) ≤
      condRisk (cardioBase {r with age := v}) (cardioFactors {r with age := v})
    unfold condRisk
    apply clamp01_mono
    simp only [cardioBase, cardioFactors, weightSum_append, weightSum_trig]
    have h1 : ind (45 ≤ r.age) (5 : ℚ) ≤ ind (45 ≤ v) 5 :=
      ind_mono (by norm_num) (fun hh => hh.trans h)
    have h2 : ind (55 ≤ r.age) (5 : ℚ) ≤ ind (55 ≤ v) 5 :=
      ind_mono (by norm_num) (fun hh => hh.trans h)
    have h3 : ind (65 ≤ r.age) (5 : ℚ) ≤ ind (65 ≤ v) 5 :=
      ind_mono (by norm_num) (fun hh => hh.trans h)
    linarith [h1, h2, h3]
  · intro r v h
    show condRisk (depressionBase r) (depressionFactors r) ≤
      condRisk (depressionBase {r with age := v})
        (depressionFactors {r with age := v})
    unfold condRisk
    apply clamp01_mono
    simp only [depressionBase, depressionFactors, weightSum_append, weightSum_trig]
    have h1 : ind (65 ≤ r.age) (3 : ℚ) ≤ ind (65 ≤ v) 3 :=
      ind_mono (by norm_num) (fun hh => hh.trans h)
    linarith [h1]
  · intro r v h
    show condRisk (cancerBase r) (cancerFactors r) ≤
      condRisk (cancerBase {r with age := v}) (cancerFactors {r with age := v})
    unfold condRisk
    apply clamp01_mono
    simp only [cancerBase, cancerFactors, weightSum_append, weightSum_trig]
    have h1 : ind (50 ≤ r.age) (5 : ℚ) ≤ ind (50 ≤ v) 5 :=
      ind_mono (by norm_num) (fun hh => hh.trans h)
    have h2 : ind (65 ≤ r.age) (5 : ℚ) ≤ ind (65 ≤ v) 5 :=
      ind_mono (by norm_num) (fun hh => hh.trans h)
    linarith [h1, h2]
  · intro r v h
    show condRisk (cancerBase r) (cancerFactors r) ≤
      condRisk (cancerBase {r with bmi := v}) (cancerFactors {r with bmi := v})
    unfold condRisk
    apply clamp01_mono
    simp only [cancerBase, cancerFactors, weightSum_append, weightSum_trig]
    have h1 : ind (30 ≤ r.bmi) (5 : ℚ) ≤ ind (30 ≤ v) 5 :=
      ind_mono (by norm_num) (fun hh => hh.trans h)
    linarith [h1]

/-- Witness for C7: raising fasting glucose of the default record from
97 to 140 does not decrease the diabetes risk percentage. -/
theorem C7_monotone_witness :
    (scoreDiabetes pdExample).risk_percentage ≤
      (scoreDiabetes {pdExample with fasting_glucose := 140}).risk_percentage :=
  C7_monotone_in_risk_increasing_fields.1 pdExample 140
    (by norm_num [pdExample, pdOf, defaultRaw])

/-- C8: the formatted output is the header followed by exactly one
bulleted line per condition of the report, in the order of the report,
each titled with the underscore-to-space, title-cased condition
identifier in bold, then the risk percentage with one decimal place,
then the comma-joined key factors, and finally the AI-insights section
(app.py lines 91 to 96). -/
theorem C8_formatted_output (rs : List (String × RiskResult)) (ai : String) :
    assess_format rs ai =
      "## Risk Assessment Results\n\n" ++
        joinAll (rs.map fun cr =>
          "- **" ++ pyTitle (underscoreToSpace cr.1) ++ ":** " ++
            fmt1 cr.2.risk_percentage ++ "% (Key Factors: " ++
            String.intercalate ", " cr.2.key_factors ++ ")\n") ++
        "\n## AI-Powered Clinical Insights\n\n" ++ ai := by
  unfold assess_format
  rw [foldl_renderLine]
  rfl
